import Mathlib

/-!
Shallow embedding of the MDapartment-scorer scoring core.

Python numbers are modelled as exact rationals (`ℚ`); Python 3's builtin
`round` (round-half-to-even, returning an int) is modelled by `pyRound`.
Python strings are modelled as `List Char` where substring tests matter,
and as `String` where only equality matters (amenity keys, transit tiers).
Dictionaries with a fixed key set are modelled as structures.
-/

namespace MDapartment

/-- Model of Python 3's builtin `round` on an exact value:
round to the nearest integer, ties going to the even neighbour. -/
def pyRound (q : ℚ) : ℤ :=
  if q - ⌊q⌋ < 1/2 then ⌊q⌋
  else if 1/2 < q - ⌊q⌋ then ⌊q⌋ + 1
  else if ⌊q⌋ % 2 = 0 then ⌊q⌋ else ⌊q⌋ + 1

lemma floor_le_pyRound (q : ℚ) : ⌊q⌋ ≤ pyRound q := by
  unfold pyRound
  split_ifs <;> omega

lemma pyRound_le_floor_add_one (q : ℚ) : pyRound q ≤ ⌊q⌋ + 1 := by
  unfold pyRound
  split_ifs <;> omega

lemma pyRound_intCast (n : ℤ) : pyRound (n : ℚ) = n := by
  unfold pyRound
  rw [Int.floor_intCast]
  norm_num

lemma pyRound_nonneg {q : ℚ} (h : 0 ≤ q) : 0 ≤ pyRound q :=
  le_trans (Int.floor_nonneg.mpr h) (floor_le_pyRound q)

lemma pyRound_le_int {q : ℚ} {n : ℤ} (h : q ≤ (n : ℚ)) : pyRound q ≤ n := by
  by_cases hq : q - ⌊q⌋ < 1/2
  · have : pyRound q = ⌊q⌋ := by unfold pyRound; rw [if_pos hq]
    rw [this]
    calc ⌊q⌋ ≤ ⌊(n : ℚ)⌋ := Int.floor_le_floor h
    _ = n := Int.floor_intCast n
  · have h1 : (⌊q⌋ : ℚ) + 1/2 ≤ q := by linarith
    have h2 : (⌊q⌋ : ℚ) < (n : ℚ) := by linarith
    have h3 : ⌊q⌋ < n := by exact_mod_cast h2
    calc pyRound q ≤ ⌊q⌋ + 1 := pyRound_le_floor_add_one q
    _ ≤ n := by omega

lemma pyRound_mono {q q' : ℚ} (h : q ≤ q') : pyRound q ≤ pyRound q' := by
  have hf : ⌊q⌋ ≤ ⌊q'⌋ := Int.floor_le_floor h
  by_cases heq : ⌊q⌋ = ⌊q'⌋
  · have hr : q - ⌊q⌋ ≤ q' - ⌊q'⌋ := by rw [← heq]; linarith
    unfold pyRound
    rw [← heq]
    split_ifs <;> first
      | omega
      | (exfalso; linarith)
  · have hlt : ⌊q⌋ + 1 ≤ ⌊q'⌋ := by omega
    calc pyRound q ≤ ⌊q⌋ + 1 := pyRound_le_floor_add_one q
    _ ≤ ⌊q'⌋ := hlt
    _ ≤ pyRound q' := floor_le_pyRound q'

/-! ## String machinery (for grocery names and amenity classification) -/

/-- `startsWith pat s`: `pat` is a prefix of the character list `s`. -/
def startsWith : List Char → List Char → Bool
  | [], _ => true
  | _ :: _, [] => false
  | p :: ps, c :: cs => p == c && startsWith ps cs

/-- `containsSub pat s`: `pat` occurs as a contiguous substring of `s`.
Model of Python's `pat in s` on strings. -/
def containsSub (pat : List Char) : List Char → Bool
  | [] => startsWith pat []
  | c :: cs => startsWith pat (c :: cs) || containsSub pat cs

/-- Model of Python's `str.lower()` (ASCII suffices for this repository). -/
def lowerStr (s : List Char) : List Char := s.map Char.toLower

/-- Model of Python's `" ".join(xs)`. -/
def joinSpace : List (List Char) → List Char
  | [] => []
  | [x] => x
  | x :: y :: xs => x ++ ' ' :: joinSpace (y :: xs)

/-! ## Data model -/

/-- `USER_SETTINGS` / the settings dict consumed by the scorers
(`commute_target` is only used by the out-of-scope geocoding glue). -/
structure Settings where
  budget_cap : ℚ
  ideal_bedrooms : ℚ
  ideal_bathrooms : ℚ
  ideal_sqft : ℚ
  market_avg_rent : ℚ
  necessities : List String
  nice_to_haves : List String

/-- The literal `USER_SETTINGS` of `apartment_scorer.py`. -/
def USER_SETTINGS : Settings :=
  { budget_cap := 2500
    ideal_bedrooms := 2
    ideal_bathrooms := 2
    ideal_sqft := 1000
    market_avg_rent := 1750
    necessities := ["covered_parking", "dishwasher", "in_unit_laundry", "ac"]
    nice_to_haves := ["pool", "sauna_hot_tub", "gym", "package_lockers"] }

/-- One entry of `grocery_data`: `{"name": str, "distance_miles": float}`. -/
structure GroceryStore where
  name : List Char
  distance_miles : ℚ
deriving DecidableEq

/-- The apartment record fields read by the scoring core. -/
structure Apartment where
  rent : ℚ
  bedrooms : ℚ
  bathrooms : ℚ
  sqft : ℚ
  amenities : List String

/-- The neighborhood record fields read by the scoring core. -/
structure Neighborhood where
  school_ratings : List ℚ
  crime_index : Option ℚ
  restaurant_count : ℚ
  restaurant_avg_rating : Option ℚ
  drive_minutes : ℚ
  transit_available : String
  nightlife_count : ℚ
  nightlife_avg_rating : Option ℚ
  grocery_stores : List GroceryStore

/-- The eleven-key score mapping returned by `score_apartment`. -/
structure ScoreVector where
  price : ℤ
  rooms : ℤ
  necessities : ℤ
  nice_to_haves : ℤ
  schools : ℤ
  crime : ℤ
  restaurants : ℤ
  commute : ℤ
  nightlife : ℤ
  grocery : ℤ
  overall : ℤ
deriving DecidableEq

/-! ## The ten category scorers (`apartment_scorer.py`) -/

/-- `score_price` of `apartment_scorer.py`. -/
def score_price (rent : ℚ) (settings : Settings) : ℤ :=
  let budget_score : ℚ :=
    if rent ≤ settings.budget_cap then 50
    else max 0 (50 - ((rent - settings.budget_cap) / 100) * 10)
  let market_score : ℚ :=
    if rent ≤ settings.market_avg_rent then 50
    else max 0 (50 - ((rent - settings.market_avg_rent) / 100) * 10)
  pyRound (budget_score + market_score)

/-- `score_rooms` of `apartment_scorer.py`. -/
def score_rooms (bedrooms bathrooms sqft : ℚ) (settings : Settings) : ℤ :=
  let bed_score : ℚ := max 0 (40 - |bedrooms - settings.ideal_bedrooms| * 20)
  let bath_score : ℚ := max 0 (40 - |bathrooms - settings.ideal_bathrooms| * 20)
  let sqft_score : ℚ :=
    if sqft ≥ settings.ideal_sqft then 20
    else if sqft ≥ settings.ideal_sqft * 0.8 then 10
    else 0
  pyRound (bed_score + bath_score + sqft_score)

/-- `score_necessities` of `apartment_scorer.py`: the loop returns 0 at the
first necessity missing from `amenities`, else 100. -/
def score_necessities (amenities : List String) (settings : Settings) : ℤ :=
  if settings.necessities.all (fun n => amenities.contains n) then 100 else 0

/-- `score_nice_to_haves` of `apartment_scorer.py`. -/
def score_nice_to_haves (amenities : List String) (settings : Settings) : ℤ :=
  let total := settings.nice_to_haves.length
  if total = 0 then 100
  else
    let count := (settings.nice_to_haves.filter (fun i => amenities.contains i)).length
    pyRound (((count : ℚ) / (total : ℚ)) * 100)

/-- `score_schools` of `apartment_scorer.py` (ratings form). -/
def score_schools (school_ratings : List ℚ) : ℤ :=
  if school_ratings = [] then 50
  else pyRound ((school_ratings.sum / (school_ratings.length : ℚ)) * 10)

/-- `score_crime` of `apartment_scorer.py`. -/
def score_crime (crime_index : Option ℚ) : ℤ :=
  match crime_index with
  | none => 50
  | some ci => pyRound (max 0 (100 - ci))

/-- `score_restaurants` of `apartment_scorer.py` (rated form). -/
def score_restaurants (restaurant_count : ℚ) (avg_rating : Option ℚ) : ℤ :=
  let density : ℤ := min 50 (pyRound ((restaurant_count / 20) * 50))
  let quality : ℤ :=
    match avg_rating with
    | none => 25
    | some r => min 50 (pyRound ((r / 4.5) * 50))
  pyRound ((density + quality : ℤ) : ℚ)

/-- The transit bonus: `{"nearby": 30, "some": 15, "none": 0}.get(t, 0)`. -/
def transit_bonus (t : String) : ℤ :=
  if t = "nearby" then 30 else if t = "some" then 15 else 0

/-- `score_commute` of `apartment_scorer.py`. -/
def score_commute (drive_minutes : ℚ) (transit_available : String) : ℤ :=
  let drive_score : ℤ :=
    if drive_minutes ≤ 10 then 70
    else if drive_minutes ≤ 20 then 55
    else if drive_minutes ≤ 30 then 40
    else if drive_minutes ≤ 45 then 25
    else 10
  pyRound ((drive_score + transit_bonus transit_available : ℤ) : ℚ)

/-- `score_nightlife` of `apartment_scorer.py` (rated form). -/
def score_nightlife (venue_count : ℚ) (avg_rating : Option ℚ) : ℤ :=
  let density : ℤ := min 50 (pyRound ((venue_count / 10) * 50))
  let quality : ℤ :=
    match avg_rating with
    | none => 25
    | some r => min 50 (pyRound ((r / 4.5) * 50))
  pyRound ((density + quality : ℤ) : ℚ)

/-- Python's `min(...)` over the distances of a non-empty store list,
given as head and tail. -/
def closest_distance (g0 : GroceryStore) (rest : List GroceryStore) : ℚ :=
  (rest.map (fun g => g.distance_miles)).foldl min g0.distance_miles

/-- The variety sub-score of `score_grocery`: distinct lower-cased names
among entries within 3 miles, 40 points at 5+ distinct. -/
def grocery_variety_score (gs : List GroceryStore) : ℤ :=
  let nearby := gs.filter (fun g => g.distance_miles ≤ 3)
  let unique_types := ((nearby.map (fun g => lowerStr g.name)).dedup).length
  min 40 (pyRound (((unique_types : ℚ) / 5) * 40))

/-- The proximity sub-score of `score_grocery`, from the closest distance. -/
def grocery_proximity_score (closest : ℚ) : ℤ :=
  if closest ≤ 0.5 then 30
  else if closest ≤ 1 then 25
  else if closest ≤ 2 then 15
  else if closest ≤ 3 then 10
  else 0

/-- The Costco-bonus sub-score of `score_grocery`: entries whose lower-cased
name contains `"costco"`, tiered by the closest such distance. -/
def grocery_costco_score (gs : List GroceryStore) : ℤ :=
  match gs.filter (fun g => containsSub ("costco".toList) (lowerStr g.name)) with
  | [] => 0
  | c0 :: cs =>
    let costco_dist := closest_distance c0 cs
    if costco_dist ≤ 3 then 30
    else if costco_dist ≤ 5 then 20
    else if costco_dist ≤ 10 then 10
    else 0

/-- `score_grocery` of `apartment_scorer.py`. -/
def score_grocery (grocery_data : List GroceryStore) : ℤ :=
  match grocery_data with
  | [] => 0
  | g0 :: rest =>
    pyRound ((grocery_variety_score (g0 :: rest) +
      grocery_proximity_score (closest_distance g0 rest) +
      grocery_costco_score (g0 :: rest) : ℤ) : ℚ)

/-! ## Master scoring function -/

/-- `score_apartment` of `apartment_scorer.py`: builds the ten category
scores and then `overall = round(sum(scores.values()) / len(scores))`,
where at that point the dict holds exactly the ten category values. -/
def score_apartment (apartment : Apartment) (nbhd : Neighborhood)
    (settings : Settings := USER_SETTINGS) : ScoreVector :=
  let p := score_price apartment.rent settings
  let ro := score_rooms apartment.bedrooms apartment.bathrooms apartment.sqft settings
  let ne := score_necessities apartment.amenities settings
  let ni := score_nice_to_haves apartment.amenities settings
  let sc := score_schools nbhd.school_ratings
  let cr := score_crime nbhd.crime_index
  let re := score_restaurants nbhd.restaurant_count nbhd.restaurant_avg_rating
  let co := score_commute nbhd.drive_minutes nbhd.transit_available
  let ng := score_nightlife nbhd.nightlife_count nbhd.nightlife_avg_rating
  let gr := score_grocery nbhd.grocery_stores
  { price := p, rooms := ro, necessities := ne, nice_to_haves := ni,
    schools := sc, crime := cr, restaurants := re, commute := co,
    nightlife := ng, grocery := gr,
    overall := pyRound (((p + ro + ne + ni + sc + cr + re + co + ng + gr : ℤ) : ℚ) / 10) }

/-! ## Unrated scorer variants (`server.py`) -/

/-- `score_restaurants(count)` of `server.py` (unrated form). -/
def server_score_restaurants (count : ℚ) : ℤ :=
  min 100 (pyRound ((count / 20) * 50) + 35)

/-- `score_nightlife(count)` of `server.py` (unrated form). -/
def server_score_nightlife (count : ℚ) : ℤ :=
  min 100 (pyRound ((count / 10) * 50) + 35)

/-- `score_schools(count)` of `server.py` (count form). -/
def server_score_schools (count : ℚ) : ℤ :=
  min 100 (pyRound ((count / 5) * 70) + 20)

/-! ## Amenity classifier (`server.py`) -/

/-- The `AMENITY_KEYWORDS` table of `server.py`, in dict order. -/
def AMENITY_KEYWORDS : List (String × List (List Char)) :=
  [("covered_parking",
    ["underground parking".toList, "covered parking".toList, "garage parking".toList,
     "indoor parking".toList, "heated parking".toList, "parking garage".toList,
     "heated underground".toList, "parking structure".toList]),
   ("dishwasher", ["dishwasher".toList]),
   ("in_unit_laundry",
    ["in-unit laundry".toList, "in unit laundry".toList, "washer/dryer".toList,
     "washer and dryer".toList, "in-home laundry".toList, "w/d in unit".toList,
     "washer & dryer".toList, "in unit washer".toList, "full-size washer".toList,
     "in-unit washer".toList, "washer dryer".toList, "in-home washer".toList]),
   ("ac",
    ["air conditioning".toList, "a/c".toList, "central air".toList,
     "climate control".toList, "air-conditioning".toList, "air conditioned".toList,
     "central a/c".toList, "hvac".toList]),
   ("pool",
    ["pool".toList, "swimming".toList, "lap pool".toList, "heated pool".toList,
     "indoor pool".toList]),
   ("sauna_hot_tub",
    ["sauna".toList, "hot tub".toList, "spa".toList, "steam room".toList]),
   ("gym",
    ["gym".toList, "fitness center".toList, "fitness room".toList,
     "exercise room".toList, "workout".toList, "fitness".toList,
     "technogym".toList, "24 hour gym".toList, "weight room".toList]),
   ("package_lockers",
    ["package locker".toList, "parcel locker".toList, "package room".toList,
     "mailroom".toList, "package concierge".toList, "package receiving".toList,
     "amazon locker".toList])]

/-- The combined text `classify_amenities_adc` matches against:
`" ".join(raw_amenities).lower() + " " + page_text.lower()`. -/
def combined_adc (raw_amenities : List (List Char)) (page_text : List Char) : List Char :=
  lowerStr (joinSpace raw_amenities) ++ ' ' :: lowerStr page_text

/-- `classify_amenities_adc` of `server.py`: a key is emitted when any of
its keywords occurs as a substring of the combined lower-cased text.
Python returns `list(set(...))` whose order is unspecified; the keys of
the dict are distinct, so we model the result as the matching keys in
dict order — the same set. -/
def classify_amenities_adc (raw_amenities : List (List Char))
    (page_text : List Char) : List String :=
  (AMENITY_KEYWORDS.filter
    (fun p => p.2.any (fun kw => containsSub kw (combined_adc raw_amenities page_text)))).map
    (fun p => p.1)

/-! ## Spec-side definitions (for refinement claims) -/

/-- Modelled from the spec's wording of §4.1: one 50-point price sub-score,
`50` if `rent <= cap`, else `max(0, 50 - 10*((rent - cap)/100))`. -/
def spec_price_sub (rent cap : ℚ) : ℚ :=
  if rent ≤ cap then 50 else max 0 (50 - 10 * ((rent - cap) / 100))

/-! ## Claim theorems -/

attribute [local semireducible] Rat.add Rat.mul Rat.sub Rat.inv Rat.ofScientific

/-- C1: `score_apartment` returns a mapping with exactly the eleven keys
(the `ScoreVector` record — a total function into it can omit none), and
the `overall` value equals the rounded arithmetic mean of the ten category
values, reconstructable from the returned vector. -/
theorem overall_is_rounded_mean (a : Apartment) (n : Neighborhood) (s : Settings) :
    (score_apartment a n s).overall =
      pyRound ((((score_apartment a n s).price + (score_apartment a n s).rooms +
        (score_apartment a n s).necessities + (score_apartment a n s).nice_to_haves +
        (score_apartment a n s).schools + (score_apartment a n s).crime +
        (score_apartment a n s).restaurants + (score_apartment a n s).commute +
        (score_apartment a n s).nightlife + (score_apartment a n s).grocery : ℤ) : ℚ) / 10) :=
  rfl

/-- Auxiliary: the code's inline price sub-score equals the spec's formula. -/
lemma code_price_sub_eq_spec (r c : ℚ) :
    (if r ≤ c then (50 : ℚ) else max 0 (50 - ((r - c) / 100) * 10)) = spec_price_sub r c := by
  unfold spec_price_sub
  split_ifs
  · rfl
  · congr 1
    ring

/-- C3: for every non-negative rent and every settings record, `score_price`
returns `round(budget_sub + market_sub)` with the spec's sub-score formulas,
each sub-score floored at 0 and not rounded individually; rounding happens
once on the sum. -/
theorem price_matches_spec_formula (rent : ℚ) (s : Settings) (_h : 0 ≤ rent) :
    score_price rent s =
      pyRound (spec_price_sub rent s.budget_cap + spec_price_sub rent s.market_avg_rent) := by
  simp only [score_price]
  rw [code_price_sub_eq_spec, code_price_sub_eq_spec]

/-- C3 witness: concrete instance at rent 2200 with the repository settings. -/
theorem price_matches_spec_formula_witness :
    (0 : ℚ) ≤ 2200 ∧
      score_price 2200 USER_SETTINGS =
        pyRound (spec_price_sub 2200 USER_SETTINGS.budget_cap +
          spec_price_sub 2200 USER_SETTINGS.market_avg_rent) :=
  ⟨by norm_num, price_matches_spec_formula 2200 USER_SETTINGS (by norm_num)⟩

/-- C4 counterexample: the code does not reject a negative rent — `score_price`
applied to rent `-1000` silently returns the perfect score 100. -/
theorem negative_rent_scored_silently : score_price (-1000) USER_SETTINGS = 100 := by
  rfl

/-- C4 amended: the scoring core never rejects; a negative rent is below any
non-negative budget cap and market average, so `score_price` silently returns
the maximal score 100 instead of failing loudly. -/
theorem negative_rent_scores_100 (rent : ℚ) (s : Settings)
    (hneg : rent < 0) (hb : 0 ≤ s.budget_cap) (hm : 0 ≤ s.market_avg_rent) :
    score_price rent s = 100 := by
  simp only [score_price]
  rw [if_pos (by linarith), if_pos (by linarith)]
  have h : (50 : ℚ) + 50 = ((100 : ℤ) : ℚ) := by norm_num
  rw [h, pyRound_intCast]

/-- C4 amended witness: concrete instance at rent `-1000`. -/
theorem negative_rent_scores_100_witness :
    (-1000 : ℚ) < 0 ∧ 0 ≤ USER_SETTINGS.budget_cap ∧ 0 ≤ USER_SETTINGS.market_avg_rent ∧
      score_price (-1000) USER_SETTINGS = 100 :=
  ⟨by norm_num, by norm_num [USER_SETTINGS], by norm_num [USER_SETTINGS],
    negative_rent_scores_100 (-1000) USER_SETTINGS (by norm_num)
      (by norm_num [USER_SETTINGS]) (by norm_num [USER_SETTINGS])⟩

/-- C5 counterexample: the classifier matches keywords against the
space-joined raw text, so the multi-word keyword `"washer dryer"` fires on
`["washer", "dryer"]` but not on the permuted input `["dryer", "washer"]` —
the output set is not invariant under permutation of the input collection. -/
theorem classifier_not_permutation_invariant :
    classify_amenities_adc ["washer".toList, "dryer".toList] [] = ["in_unit_laundry"] ∧
    classify_amenities_adc ["dryer".toList, "washer".toList] [] = [] := by
  constructor <;> rfl

/-- C5 amended: each canonical key is included exactly when one of its fixed
case-insensitive keyword patterns occurs as a substring of the space-joined
lower-cased raw text followed by the lower-cased page text; the per-key tests
are independent, but the join is order-sensitive (multi-word keywords may
match across element boundaries), and the output is always a subset of the
eight canonical amenity keys. -/
theorem classifier_membership (raw : List (List Char)) (page : List Char) (k : String) :
    (k ∈ classify_amenities_adc raw page ↔
      ∃ kws, (k, kws) ∈ AMENITY_KEYWORDS ∧
        kws.any (fun kw => containsSub kw (combined_adc raw page)) = true) ∧
    classify_amenities_adc raw page ⊆ AMENITY_KEYWORDS.map Prod.fst := by
  constructor
  · unfold classify_amenities_adc
    simp only [List.mem_map, List.mem_filter]
    constructor
    · rintro ⟨p, ⟨hp, hmatch⟩, rfl⟩
      exact ⟨p.2, by rwa [Prod.mk.eta], hmatch⟩
    · rintro ⟨kws, hmem, hmatch⟩
      exact ⟨(k, kws), ⟨hmem, hmatch⟩, rfl⟩
  · intro x hx
    unfold classify_amenities_adc at hx
    simp only [List.mem_map, List.mem_filter] at hx
    obtain ⟨p, ⟨hp, _⟩, rfl⟩ := hx
    exact List.mem_map_of_mem Prod.fst hp

/-- C6: `score_grocery` on the empty list returns 0, and on the single entry
`{name: "Costco", distance_miles: 2}` returns 53 = variety 8 + proximity 15 +
specific-retailer bonus 30. -/
theorem grocery_examples :
    score_grocery [] = 0 ∧
    score_grocery [⟨"Costco".toList, 2⟩] = 53 := by
  constructor
  · rfl
  · rfl

/-- C7: the nightlife scorer is the restaurants scorer with density
denominator 10 instead of 20 — the rated nightlife score at `(c, r)` equals
the rated restaurants score at `(2c, r)` — and the unrated nightlife form
returns `min(100, round(50*(c/10)) + 35)`. -/
theorem nightlife_is_restaurants_with_denominator_10 (c : ℚ) (r : Option ℚ) :
    score_nightlife c r = score_restaurants (2 * c) r ∧
    server_score_nightlife c = min 100 (pyRound (50 * (c / 10)) + 35) := by
  constructor
  · simp only [score_nightlife, score_restaurants]
    have h : 2 * c / 20 * 50 = c / 10 * 50 := by ring
    rw [h]
  · simp only [server_score_nightlife]
    have h : c / 10 * 50 = 50 * (c / 10) := by ring
    rw [h]

/-- C8: scoring is deterministic and free of hidden state — two calls with
identical inputs yield identical vectors, and every component of the result
is a function of the explicit inputs alone (the named fields of the
apartment, neighborhood and settings records). -/
theorem scoring_pure_and_componentwise (a : Apartment) (n : Neighborhood) (s : Settings) :
    score_apartment a n s = score_apartment a n s ∧
    (score_apartment a n s).price = score_price a.rent s ∧
    (score_apartment a n s).rooms = score_rooms a.bedrooms a.bathrooms a.sqft s ∧
    (score_apartment a n s).necessities = score_necessities a.amenities s ∧
    (score_apartment a n s).nice_to_haves = score_nice_to_haves a.amenities s ∧
    (score_apartment a n s).schools = score_schools n.school_ratings ∧
    (score_apartment a n s).crime = score_crime n.crime_index ∧
    (score_apartment a n s).restaurants =
      score_restaurants n.restaurant_count n.restaurant_avg_rating ∧
    (score_apartment a n s).commute = score_commute n.drive_minutes n.transit_available ∧
    (score_apartment a n s).nightlife =
      score_nightlife n.nightlife_count n.nightlife_avg_rating ∧
    (score_apartment a n s).grocery = score_grocery n.grocery_stores :=
  ⟨rfl, rfl, rfl, rfl, rfl, rfl, rfl, rfl, rfl, rfl, rfl⟩

/-- C10: for every drive time and every transit string (unrecognized strings
contribute a transit bonus of 0), the commute score is at least 10. -/
theorem commute_at_least_10 (m : ℚ) (t : String) : 10 ≤ score_commute m t := by
  simp only [score_commute, transit_bonus]
  split_ifs <;> rw [pyRound_intCast] <;> norm_num

/-! ## Range lemmas for the ten scorers -/

/-- Each inline price sub-score of `score_price` lies in `[0, 50]`. -/
lemma price_sub_bounds (r c : ℚ) :
    0 ≤ (if r ≤ c then (50 : ℚ) else max 0 (50 - ((r - c) / 100) * 10)) ∧
      (if r ≤ c then (50 : ℚ) else max 0 (50 - ((r - c) / 100) * 10)) ≤ 50 := by
  split_ifs with h
  · norm_num
  · exact ⟨le_max_left 0 _, max_le (by norm_num) (by linarith)⟩

lemma score_price_bounds (r : ℚ) (s : Settings) :
    0 ≤ score_price r s ∧ score_price r s ≤ 100 := by
  simp only [score_price]
  have h1 := price_sub_bounds r s.budget_cap
  have h2 := price_sub_bounds r s.market_avg_rent
  refine ⟨pyRound_nonneg (by linarith [h1.1, h2.1]), pyRound_le_int ?_⟩
  push_cast
  linarith [h1.2, h2.2]

/-- Each room-match part of `score_rooms` lies in `[0, 40]`. -/
lemma rooms_part_bounds (x i : ℚ) :
    0 ≤ max 0 (40 - |x - i| * 20) ∧ max 0 (40 - |x - i| * 20) ≤ 40 := by
  have := abs_nonneg (x - i)
  exact ⟨le_max_left 0 _, max_le (by norm_num) (by linarith)⟩

lemma score_rooms_bounds (b ba sq : ℚ) (s : Settings) :
    0 ≤ score_rooms b ba sq s ∧ score_rooms b ba sq s ≤ 100 := by
  simp only [score_rooms]
  have h1 := rooms_part_bounds b s.ideal_bedrooms
  have h2 := rooms_part_bounds ba s.ideal_bathrooms
  have h3 : 0 ≤ (if sq ≥ s.ideal_sqft then (20 : ℚ)
        else if sq ≥ s.ideal_sqft * 0.8 then 10 else 0) ∧
      (if sq ≥ s.ideal_sqft then (20 : ℚ)
        else if sq ≥ s.ideal_sqft * 0.8 then 10 else 0) ≤ 20 := by
    split_ifs <;> norm_num
  refine ⟨pyRound_nonneg (by linarith [h1.1, h2.1, h3.1]), pyRound_le_int ?_⟩
  push_cast
  linarith [h1.2, h2.2, h3.2]

lemma score_necessities_bounds (a : List String) (s : Settings) :
    0 ≤ score_necessities a s ∧ score_necessities a s ≤ 100 := by
  unfold score_necessities
  split_ifs <;> norm_num

lemma score_nice_to_haves_bounds (a : List String) (s : Settings) :
    0 ≤ score_nice_to_haves a s ∧ score_nice_to_haves a s ≤ 100 := by
  simp only [score_nice_to_haves]
  split_ifs with h
  · norm_num
  · have hT : 0 < (s.nice_to_haves.length : ℚ) := by
      have := Nat.pos_of_ne_zero h
      exact_mod_cast this
    have hc : (((s.nice_to_haves.filter (fun i => a.contains i)).length : ℚ)) ≤
        (s.nice_to_haves.length : ℚ) := by
      exact_mod_cast List.length_filter_le _ _
    refine ⟨pyRound_nonneg (by positivity), pyRound_le_int ?_⟩
    have hdiv : ((s.nice_to_haves.filter (fun i => a.contains i)).length : ℚ) /
        (s.nice_to_haves.length : ℚ) ≤ 1 := by
      rw [div_le_one hT]
      exact hc
    push_cast
    nlinarith [hdiv]

/-- Sums of lists with pointwise upper bound `b`. -/
lemma list_sum_le_length_mul (l : List ℚ) (b : ℚ) (h : ∀ x ∈ l, x ≤ b) :
    l.sum ≤ (l.length : ℚ) * b := by
  induction l with
  | nil => simp
  | cons x xs ih =>
    simp only [List.sum_cons, List.length_cons]
    have hx : x ≤ b := h x (List.mem_cons_self x xs)
    have hxs := ih (fun y hy => h y (List.mem_cons_of_mem x hy))
    push_cast
    nlinarith [hx, hxs]

/-- Sums of lists with pointwise lower bound `b`. -/
lemma length_mul_le_list_sum (l : List ℚ) (b : ℚ) (h : ∀ x ∈ l, b ≤ x) :
    (l.length : ℚ) * b ≤ l.sum := by
  induction l with
  | nil => simp
  | cons x xs ih =>
    simp only [List.sum_cons, List.length_cons]
    have hx : b ≤ x := h x (List.mem_cons_self x xs)
    have hxs := ih (fun y hy => h y (List.mem_cons_of_mem x hy))
    push_cast
    nlinarith [hx, hxs]

lemma score_schools_bounds (ratings : List ℚ) (h : ∀ x ∈ ratings, 1 ≤ x ∧ x ≤ 10) :
    0 ≤ score_schools ratings ∧ score_schools ratings ≤ 100 := by
  simp only [score_schools]
  split_ifs with he
  · norm_num
  · have hL : 0 < (ratings.length : ℚ) := by
      have h1 : ratings.length ≠ 0 := fun hl => he (List.eq_nil_of_length_eq_zero hl)
      have h2 : 0 < ratings.length := Nat.pos_of_ne_zero h1
      exact_mod_cast h2
    have hsum_le : ratings.sum ≤ (ratings.length : ℚ) * 10 :=
      list_sum_le_length_mul _ _ (fun x hx => (h x hx).2)
    have hsum_ge : (ratings.length : ℚ) * 0 ≤ ratings.sum :=
      length_mul_le_list_sum _ _ (fun x hx => by linarith [(h x hx).1])
    constructor
    · refine pyRound_nonneg (mul_nonneg (div_nonneg (by linarith) hL.le) (by norm_num))
    · refine pyRound_le_int ?_
      have hdiv : ratings.sum / (ratings.length : ℚ) ≤ 10 := by
        rw [div_le_iff₀ hL]
        linarith
      push_cast
      linarith

lemma score_crime_bounds (ci : Option ℚ) (h : ∀ c, ci = some c → 0 ≤ c ∧ c ≤ 100) :
    0 ≤ score_crime ci ∧ score_crime ci ≤ 100 := by
  cases ci with
  | none => simp [score_crime]
  | some c =>
    have hc := h c rfl
    simp only [score_crime]
    refine ⟨pyRound_nonneg (le_max_left 0 _), pyRound_le_int ?_⟩
    push_cast
    exact max_le (by norm_num) (by linarith [hc.1])

lemma score_restaurants_bounds (c : ℚ) (hc : 0 ≤ c) (avg : Option ℚ)
    (h : ∀ r, avg = some r → 0 ≤ r ∧ r ≤ 5) :
    0 ≤ score_restaurants c avg ∧ score_restaurants c avg ≤ 100 := by
  have hd1 : (0 : ℤ) ≤ min 50 (pyRound (c / 20 * 50)) :=
    le_min (by norm_num) (pyRound_nonneg (mul_nonneg (div_nonneg hc (by norm_num)) (by norm_num)))
  have hd2 : min 50 (pyRound (c / 20 * 50)) ≤ 50 := min_le_left _ _
  cases avg with
  | none =>
    simp only [score_restaurants]
    rw [pyRound_intCast]
    omega
  | some r =>
    have hr := h r rfl
    have hq1 : (0 : ℤ) ≤ min 50 (pyRound (r / 4.5 * 50)) :=
      le_min (by norm_num)
        (pyRound_nonneg (mul_nonneg (div_nonneg hr.1 (by norm_num)) (by norm_num)))
    have hq2 : min 50 (pyRound (r / 4.5 * 50)) ≤ 50 := min_le_left _ _
    simp only [score_restaurants]
    rw [pyRound_intCast]
    omega

lemma score_commute_bounds (m : ℚ) (t : String) :
    0 ≤ score_commute m t ∧ score_commute m t ≤ 100 := by
  simp only [score_commute, transit_bonus]
  split_ifs <;> rw [pyRound_intCast] <;> norm_num

lemma score_nightlife_bounds (c : ℚ) (hc : 0 ≤ c) (avg : Option ℚ)
    (h : ∀ r, avg = some r → 0 ≤ r ∧ r ≤ 5) :
    0 ≤ score_nightlife c avg ∧ score_nightlife c avg ≤ 100 := by
  have hd1 : (0 : ℤ) ≤ min 50 (pyRound (c / 10 * 50)) :=
    le_min (by norm_num) (pyRound_nonneg (mul_nonneg (div_nonneg hc (by norm_num)) (by norm_num)))
  have hd2 : min 50 (pyRound (c / 10 * 50)) ≤ 50 := min_le_left _ _
  cases avg with
  | none =>
    simp only [score_nightlife]
    rw [pyRound_intCast]
    omega
  | some r =>
    have hr := h r rfl
    have hq1 : (0 : ℤ) ≤ min 50 (pyRound (r / 4.5 * 50)) :=
      le_min (by norm_num)
        (pyRound_nonneg (mul_nonneg (div_nonneg hr.1 (by norm_num)) (by norm_num)))
    have hq2 : min 50 (pyRound (r / 4.5 * 50)) ≤ 50 := min_le_left _ _
    simp only [score_nightlife]
    rw [pyRound_intCast]
    omega

lemma grocery_variety_bounds (gs : List GroceryStore) :
    0 ≤ grocery_variety_score gs ∧ grocery_variety_score gs ≤ 40 := by
  simp only [grocery_variety_score]
  exact ⟨le_min (by norm_num) (pyRound_nonneg (by positivity)), min_le_left _ _⟩

lemma grocery_proximity_bounds (cl : ℚ) :
    0 ≤ grocery_proximity_score cl ∧ grocery_proximity_score cl ≤ 30 := by
  simp only [grocery_proximity_score]
  split_ifs <;> norm_num

lemma grocery_costco_bounds (gs : List GroceryStore) :
    0 ≤ grocery_costco_score gs ∧ grocery_costco_score gs ≤ 30 := by
  simp only [grocery_costco_score]
  split
  · norm_num
  · split_ifs <;> norm_num

lemma score_grocery_bounds (gs : List GroceryStore) :
    0 ≤ score_grocery gs ∧ score_grocery gs ≤ 100 := by
  cases gs with
  | nil => simp [score_grocery]
  | cons g0 rest =>
    have h1 := grocery_variety_bounds (g0 :: rest)
    have h2 := grocery_proximity_bounds (closest_distance g0 rest)
    have h3 := grocery_costco_bounds (g0 :: rest)
    simp only [score_grocery]
    rw [pyRound_intCast]
    omega

/-- C2: for every input drawn from the documented domains, each of the ten
category scorers returns an integer in `[0, 100]`. -/
theorem scorers_bounded_on_documented_domains
    (s : Settings) (rent : ℚ) (_hrent : 0 ≤ rent)
    (bedrooms bathrooms sqft : ℚ) (amenities : List String)
    (ratings : List ℚ) (hratings : ∀ x ∈ ratings, 1 ≤ x ∧ x ≤ 10)
    (ci : Option ℚ) (hci : ∀ c, ci = some c → 0 ≤ c ∧ c ≤ 100)
    (rcount : ℚ) (hrcount : 0 ≤ rcount)
    (ravg : Option ℚ) (hravg : ∀ r, ravg = some r → 0 ≤ r ∧ r ≤ 5)
    (mins : ℚ) (transit : String)
    (ncount : ℚ) (hncount : 0 ≤ ncount)
    (navg : Option ℚ) (hnavg : ∀ r, navg = some r → 0 ≤ r ∧ r ≤ 5)
    (stores : List GroceryStore) (_hstores : ∀ g ∈ stores, 0 ≤ g.distance_miles) :
    (0 ≤ score_price rent s ∧ score_price rent s ≤ 100) ∧
    (0 ≤ score_rooms bedrooms bathrooms sqft s ∧ score_rooms bedrooms bathrooms sqft s ≤ 100) ∧
    (0 ≤ score_necessities amenities s ∧ score_necessities amenities s ≤ 100) ∧
    (0 ≤ score_nice_to_haves amenities s ∧ score_nice_to_haves amenities s ≤ 100) ∧
    (0 ≤ score_schools ratings ∧ score_schools ratings ≤ 100) ∧
    (0 ≤ score_crime ci ∧ score_crime ci ≤ 100) ∧
    (0 ≤ score_restaurants rcount ravg ∧ score_restaurants rcount ravg ≤ 100) ∧
    (0 ≤ score_commute mins transit ∧ score_commute mins transit ≤ 100) ∧
    (0 ≤ score_nightlife ncount navg ∧ score_nightlife ncount navg ≤ 100) ∧
    (0 ≤ score_grocery stores ∧ score_grocery stores ≤ 100) :=
  ⟨score_price_bounds rent s, score_rooms_bounds bedrooms bathrooms sqft s,
    score_necessities_bounds amenities s, score_nice_to_haves_bounds amenities s,
    score_schools_bounds ratings hratings, score_crime_bounds ci hci,
    score_restaurants_bounds rcount hrcount ravg hravg, score_commute_bounds mins transit,
    score_nightlife_bounds ncount hncount navg hnavg, score_grocery_bounds stores⟩

/-- C2 witness: concrete instance on the example data of the repository. -/
theorem scorers_bounded_on_documented_domains_witness :
    ((0 : ℚ) ≤ 2200 ∧
      (∀ x ∈ ([7, 8, 6] : List ℚ), 1 ≤ x ∧ x ≤ 10) ∧
      (∀ c, (some 35 : Option ℚ) = some c → 0 ≤ c ∧ c ≤ 100) ∧
      (0 : ℚ) ≤ 25 ∧
      (∀ r, (some (21/5) : Option ℚ) = some r → 0 ≤ r ∧ r ≤ 5) ∧
      (0 : ℚ) ≤ 12 ∧
      (∀ r, (some 4 : Option ℚ) = some r → 0 ≤ r ∧ r ≤ 5) ∧
      (∀ g ∈ [({ name := "Costco".toList, distance_miles := 2 } : GroceryStore)],
        0 ≤ g.distance_miles)) ∧
    ((0 ≤ score_price 2200 USER_SETTINGS ∧ score_price 2200 USER_SETTINGS ≤ 100) ∧
    (0 ≤ score_rooms 2 2 1050 USER_SETTINGS ∧ score_rooms 2 2 1050 USER_SETTINGS ≤ 100) ∧
    (0 ≤ score_necessities ["ac"] USER_SETTINGS ∧
      score_necessities ["ac"] USER_SETTINGS ≤ 100) ∧
    (0 ≤ score_nice_to_haves ["ac"] USER_SETTINGS ∧
      score_nice_to_haves ["ac"] USER_SETTINGS ≤ 100) ∧
    (0 ≤ score_schools [7, 8, 6] ∧ score_schools [7, 8, 6] ≤ 100) ∧
    (0 ≤ score_crime (some 35) ∧ score_crime (some 35) ≤ 100) ∧
    (0 ≤ score_restaurants 25 (some (21/5)) ∧ score_restaurants 25 (some (21/5)) ≤ 100) ∧
    (0 ≤ score_commute 18 "nearby" ∧ score_commute 18 "nearby" ≤ 100) ∧
    (0 ≤ score_nightlife 12 (some 4) ∧ score_nightlife 12 (some 4) ≤ 100) ∧
    (0 ≤ score_grocery [{ name := "Costco".toList, distance_miles := 2 }] ∧
      score_grocery [{ name := "Costco".toList, distance_miles := 2 }] ≤ 100)) := by
  refine ⟨⟨by norm_num, by decide, ?_, by norm_num, ?_, by norm_num, ?_, by decide⟩, ?_⟩
  · intro c hc
    injection hc with h
    subst h
    norm_num
  · intro r hr
    injection hr with h
    subst h
    norm_num
  · intro r hr
    injection hr with h
    subst h
    norm_num
  · exact scorers_bounded_on_documented_domains USER_SETTINGS 2200 (by norm_num)
      2 2 1050 ["ac"] [7, 8, 6] (by decide) (some 35)
      (by intro c hc; injection hc with h; subst h; norm_num)
      25 (by norm_num) (some (21/5))
      (by intro r hr; injection hr with h; subst h; norm_num)
      18 "nearby" 12 (by norm_num) (some 4)
      (by intro r hr; injection hr with h; subst h; norm_num)
      [{ name := "Costco".toList, distance_miles := 2 }] (by decide)

/-- The inline price sub-score is non-increasing in the rent. -/
lemma price_sub_antitone (c : ℚ) {r1 r2 : ℚ} (h : r1 ≤ r2) :
    (if r2 ≤ c then (50 : ℚ) else max 0 (50 - ((r2 - c) / 100) * 10)) ≤
      (if r1 ≤ c then (50 : ℚ) else max 0 (50 - ((r1 - c) / 100) * 10)) := by
  split_ifs with h2 h1 h1
  · exact le_rfl
  · exact absurd (le_trans h h2) h1
  · exact max_le (by norm_num) (by linarith)
  · exact max_le_max le_rfl (by linarith)

/-- C9: for a fixed settings record, `score_price` is monotonically
non-increasing in the rent: a higher rent never yields a higher price score. -/
theorem price_nonincreasing_in_rent (s : Settings) (r1 r2 : ℚ)
    (_h0 : 0 ≤ r1) (h : r1 ≤ r2) :
    score_price r2 s ≤ score_price r1 s := by
  simp only [score_price]
  exact pyRound_mono
    (add_le_add (price_sub_antitone s.budget_cap h) (price_sub_antitone s.market_avg_rent h))

/-- C9 witness: concrete instance at rents 2000 and 3000. -/
theorem price_nonincreasing_in_rent_witness :
    (0 : ℚ) ≤ 2000 ∧ (2000 : ℚ) ≤ 3000 ∧
      score_price 3000 USER_SETTINGS ≤ score_price 2000 USER_SETTINGS :=
  ⟨by norm_num, by norm_num,
    price_nonincreasing_in_rent USER_SETTINGS 2000 3000 (by norm_num) (by norm_num)⟩

end MDapartment
